import Mathlib

/-!
Verification of the EarthGPT frontend session/message synchronization engine
(`src/frontend/src/hooks/useChat.ts` and `src/frontend/src/App.tsx`) against
its natural-language specification.

The TypeScript hook is embedded shallowly: React state becomes an explicit
`ChatState` record, `localStorage` becomes the explicit `Storage` record,
every remote call is resolved through an explicit environment value
(`SendEnv`, `LoadEnv`, `CreateOutcome`, ...), and each event handler or
effect firing becomes a pure state-transition function.  Instants
(`Date.now()`, ISO timestamps) are modelled as natural numbers.

The scheduling model is the sequential, cooperative one of the source
runtime: state updates queued by one handler are applied in program order,
and an asynchronous continuation of an effect completes before the next
user-visible event is processed.  Within one effect firing the ordering of
the two `useEffect` bodies of `useChat` (declaration order: the load effect
runs its synchronous prefix, then the reset effect runs, then the load
continuation resumes after its awaited fetch) is preserved, because several
claims depend on it.
-/

namespace EarthGPT

/-- Role of a chat message (`types/index.ts`, `Message.role`). -/
inductive Role where
  | user
  | assistant
  | system
deriving DecidableEq, Repr

/-- A chat message (`types/index.ts`, `Message`).  `memoryUsed` is the
optional `memory_used` field that `useChat.ts` copies onto assistant
messages from the response envelope. -/
structure Message where
  role : Role
  content : String
  timestamp : Nat
  memoryUsed : Option Bool
deriving DecidableEq, Repr

/-- A chat session (`types/index.ts`, `ChatSession`). -/
structure ChatSession where
  id : String
  title : String
  messages : List Message
  createdAt : Nat
  lastActivity : Nat
  isActive : Bool
  messageCount : Option Nat
deriving DecidableEq, Repr

/-- The browser persistent store, restricted to the three keys the engine
uses: `earthgpt-sessions` (the mirrored session snapshot),
`earthgpt-current-session-id`, and `earthgpt-no-auto-session`.
A removed key is `none` / `false`. -/
structure Storage where
  cachedSessions : List ChatSession
  currentSessionId : Option String
  noAutoSession : Bool
deriving DecidableEq, Repr

/-- The combined mutable state of `useChat` and `App`: the React state
variables and refs of both components, the persistent storage, plus ghost
observation fields (`fetchCount`, `autoCreates`, `toasts`) that count the
remote session-list fetches, the auto-created initial sessions, and record
the user-visible error notifications. -/
structure ChatState where
  sessions : List ChatSession
  currentSession : Option ChatSession
  isLoading : Bool
  isLoadingSessions : Bool
  /-- `sessionsLoadedRef.current` in `useChat.ts`. -/
  sessionsLoaded : Bool
  /-- `hasAttemptedInitialSession.current` in `App.tsx`. -/
  hasAttempted : Bool
  storage : Storage
  fetchCount : Nat
  autoCreates : Nat
  toasts : List String
deriving DecidableEq, Repr

/-- `setSessions` followed by the mirror effect of `useChat.ts` lines
151-154: every change to the in-memory session list is written back to the
`earthgpt-sessions` key of the persistent store.  The mirror runs after the
state update it mirrors, so the written snapshot is the new list. -/
def setSessionsMirror (l : List ChatSession) (st : ChatState) : ChatState :=
  { st with
      sessions := l
      storage := { st.storage with cachedSessions := l } }

/-- Title truncation of `useChat.ts` line 302:
`content.length > 50 ? content.substring(0, 50) + '...' : content`. -/
def deriveTitle (content : String) : String :=
  if content.length > 50 then content.take 50 ++ "..." else content

/-- `updateSessionTitle` (`useChat.ts` lines 260-266): rewrites the title
and bumps `lastActivity` of the matching entry of the session list; it does
not touch `currentSession`. -/
def updateSessionTitle (sessionId title : String) (now : Nat)
    (st : ChatState) : ChatState :=
  setSessionsMirror
    (st.sessions.map fun s =>
      if s.id = sessionId then { s with title := title, lastActivity := now }
      else s) st

/-- Result of the remote `createSession` call consumed by
`createNewSession`. -/
structure RemoteCreated where
  id : String
  title : String
  createdAt : Nat
  lastActivity : Nat
  isActive : Bool
deriving DecidableEq, Repr

/-- Outcome of the remote session-creation call. -/
inductive CreateOutcome where
  | ok (r : RemoteCreated)
  | fail
deriving DecidableEq, Repr

/-- The session object `createNewSession` constructs: from the remote
response on success (`useChat.ts` lines 173-180), or the local fallback
with id `session-<timestamp>` on failure (lines 192-199). -/
def createdSession (c : CreateOutcome) (now : Nat) : ChatSession :=
  match c with
  | .ok r =>
      { id := r.id, title := r.title, messages := [],
        createdAt := r.createdAt, lastActivity := r.lastActivity,
        isActive := r.isActive, messageCount := none }
  | .fail =>
      { id := "session-" ++ toString now, title := "New Chat", messages := [],
        createdAt := now, lastActivity := now,
        isActive := true, messageCount := none }

/-- `createNewSession` (`useChat.ts` lines 169-209): on both branches the
new session is prepended to the list, becomes current, and its id is
persisted as the current-session id.  Returns the new session as the
source function does. -/
def createNewSession (c : CreateOutcome) (now : Nat) (st : ChatState) :
    ChatState × ChatSession :=
  let ns := createdSession c now
  let st1 := setSessionsMirror (ns :: st.sessions) st
  ({ st1 with
      currentSession := some ns
      storage := { st1.storage with currentSessionId := some ns.id } }, ns)

/-- `selectSession` (`useChat.ts` lines 212-234): loads the history for the
session (environment `hist`; `none` models a failed history fetch, in which
case the session is selected with its existing messages), and persists the
selected id in both cases. -/
def selectSession (session : ChatSession) (hist : Option (List Message))
    (st : ChatState) : ChatState :=
  let withMsgs :=
    match hist with
    | some msgs => { session with messages := msgs }
    | none => session
  { st with
      currentSession := some withMsgs
      storage := { st.storage with currentSessionId := some session.id } }

/-- `deleteSession` (`useChat.ts` lines 237-257).  `remoteOk` is the
outcome of the remote delete: on failure nothing is mutated and the
"Failed to delete session" toast is surfaced; on success the list is
pruned, and if the deleted session was current, the first remaining
session (in list order) becomes current, or the current session and the
persisted id are cleared when none remain. -/
def deleteSession (sessionId : String) (remoteOk : Bool) (st : ChatState) :
    ChatState :=
  if remoteOk then
    let st1 := setSessionsMirror
      (st.sessions.filter fun s => s.id ≠ sessionId) st
    match st.currentSession with
    | some c =>
        if c.id = sessionId then
          match st.sessions.filter (fun s => s.id ≠ sessionId) with
          | first :: _ =>
              { st1 with
                  currentSession := some first
                  storage := { st1.storage with
                                currentSessionId := some first.id } }
          | [] =>
              { st1 with
                  currentSession := none
                  storage := { st1.storage with currentSessionId := none } }
        else st1
    | none => st1
  else
    { st with toasts := st.toasts ++ ["Failed to delete session"] }

/-- `handleDeleteSession` (`App.tsx` lines 77-85): runs `deleteSession`,
then clears the `earthgpt-no-auto-session` opt-out flag when the list held
exactly one session before the delete (the closure over `sessions` in the
source reads the pre-delete list). -/
def handleDeleteSession (sessionId : String) (remoteOk : Bool)
    (st : ChatState) : ChatState :=
  let st1 := deleteSession sessionId remoteOk st
  if st.sessions.length = 1 then
    { st1 with storage := { st1.storage with noAutoSession := false } }
  else st1

/-- `handleNewChat` (`App.tsx` lines 65-70): clears the opt-out flag, then
creates a session. -/
def handleNewChat (c : CreateOutcome) (now : Nat) (st : ChatState) :
    ChatState :=
  (createNewSession c now
    { st with storage := { st.storage with noAutoSession := false } }).1

/-! ## The message send pipeline (`sendMessage`, `useChat.ts` lines 269-369) -/

/-- The response envelope of the message-send endpoint as `sendMessage`
consumes it (`ChatResponse` of `types/index.ts` restricted to the fields
the hook reads). -/
structure ChatResponse where
  response : String
  timestamp : Nat
  memoryUsed : Option Bool
  guardrailTriggered : Bool
deriving DecidableEq, Repr

/-- An HTTP-style failure of a remote call, as the hook inspects it:
`error.response.status` and `error.response.data.detail`. -/
structure ApiError where
  status : Nat
  detail : String
deriving DecidableEq, Repr

/-- Outcome of one `sendAuthenticatedMessage` dispatch. -/
inductive SendResult where
  | ok (r : ChatResponse)
  | fail (e : ApiError)
deriving DecidableEq, Repr

/-- The error test of `useChat.ts` line 316:
`error.response?.status === 404 && error.response?.data?.detail === "Session not found"`. -/
def isNotFound (e : ApiError) : Bool :=
  e.status = 404 && e.detail = "Session not found"

/-- Environment of one `sendMessage` call: the outcome of the first
dispatch, the outcome of the remote create used by the not-found recovery
path, the outcome of the retry dispatch, and the current instant. -/
structure SendEnv where
  attempt1 : SendResult
  create : CreateOutcome
  attempt2 : SendResult
  now : Nat
deriving Repr

/-- The user message `sendMessage` constructs (`useChat.ts` lines 282-286). -/
def userMessage (content : String) (now : Nat) : Message :=
  { role := .user, content := content, timestamp := now, memoryUsed := none }

/-- Success continuation of `sendMessage` (`useChat.ts` lines 331-355):
appends the assistant message to the closure values `updatedMessages` /
`updatedSession`, sets `messageCount` from the local length, and replaces
both the current session and the list entry matching the closure
`currentSession.id` (`origId`).  Note that `finalSession` is built from
`updatedSession`, so it carries the pre-derivation title. -/
def applySuccess (origId : String) (updatedMessages : List Message)
    (updatedSession : ChatSession) (r : ChatResponse) (now : Nat)
    (st : ChatState) : ChatState :=
  let assistantMessage : Message :=
    { role := .assistant, content := r.response, timestamp := r.timestamp,
      memoryUsed := r.memoryUsed }
  let finalMessages := updatedMessages ++ [assistantMessage]
  let finalSession :=
    { updatedSession with
        messages := finalMessages
        lastActivity := now
        messageCount := some finalMessages.length }
  let st1 := setSessionsMirror
    (st.sessions.map fun s => if s.id = origId then finalSession else s)
    { st with currentSession := some finalSession }
  if r.guardrailTriggered then
    { st1 with toasts := st1.toasts ++
        ["This topic is outside my sustainability focus. Please ask about environmental topics."] }
  else st1

/-- Failure continuation of `sendMessage` (the catch block, `useChat.ts`
lines 357-365): surfaces the error toast and removes the last message of
whatever session is current at that point (`prev.messages.slice(0, -1)`);
the session list is not touched. -/
def applyFailure (st : ChatState) : ChatState :=
  { st with
      toasts := st.toasts ++ ["Failed to send message. Please try again."]
      currentSession := st.currentSession.map fun c =>
        { c with messages := c.messages.dropLast } }

/-- The closure value `updatedSession` of `useChat.ts` lines 289-293: the
current session with the user message appended and `lastActivity` bumped. -/
def updatedSessionOf (content : String) (now : Nat) (cs : ChatSession) :
    ChatSession :=
  { cs with
      messages := cs.messages ++ [userMessage content now]
      lastActivity := now }

/-- The optimistic phase of `sendMessage` (`useChat.ts` lines 282-304):
replaces the current session and its list entry by `updatedSession`, then
derives the title when the session had zero messages before the send. -/
def optimisticUpdate (content : String) (now : Nat) (cs : ChatSession)
    (st : ChatState) : ChatState :=
  let updatedSession := updatedSessionOf content now cs
  let st1 := setSessionsMirror
    (st.sessions.map fun s => if s.id = cs.id then updatedSession else s)
    { st with isLoading := true, currentSession := some updatedSession }
  if cs.messages.length = 0 then
    updateSessionTitle cs.id (deriveTitle content) now st1
  else st1

/-- `sendMessage` (`useChat.ts` lines 269-369).  Returns the final state
and the dispatch log: one `(session_id, message)` pair per
`sendAuthenticatedMessage` network attempt, in order.  With no current
session it fails fast with a toast and no mutation.  Otherwise the user
message is appended optimistically to the current session and its list
entry, the title is derived when the session had no messages, and the
dispatch outcome is handled: success appends the assistant message; a
404 "Session not found" failure creates a replacement session and retries
exactly once; any other failure (including a failed retry) runs the
rollback catch block. -/
def sendMessage (content : String) (env : SendEnv) (st : ChatState) :
    ChatState × List (String × String) :=
  match st.currentSession with
  | none => ({ st with toasts := st.toasts ++ ["No active session"] }, [])
  | some cs =>
      let updatedSession := updatedSessionOf content env.now cs
      let st2 := optimisticUpdate content env.now cs st
      match env.attempt1 with
      | .ok r =>
          ({ applySuccess cs.id updatedSession.messages updatedSession r
              env.now st2 with isLoading := false }, [(cs.id, content)])
      | .fail e =>
          if isNotFound e then
            let created := createNewSession env.create env.now st2
            match env.attempt2 with
            | .ok r =>
                ({ applySuccess cs.id updatedSession.messages updatedSession r
                    env.now created.1 with isLoading := false },
                 [(cs.id, content), (created.2.id, content)])
            | .fail _ =>
                ({ applyFailure created.1 with isLoading := false },
                 [(cs.id, content), (created.2.id, content)])
          else
            ({ applyFailure st2 with isLoading := false }, [(cs.id, content)])

/-! ## The synchronization controller
(`useChat.ts` effects, lines 18-149, and the `App.tsx` bootstrap effect,
lines 40-63) -/

/-- A session record of the remote session-list endpoint, as
`loadSessions` consumes it (`useChat.ts` lines 45-53). -/
structure RemoteSessionInfo where
  id : String
  title : String
  createdAt : Nat
  lastActivity : Nat
  isActive : Bool
  messageCount : Nat
deriving DecidableEq, Repr

/-- The mapping of `useChat.ts` lines 45-53; `session.title || 'New Chat'`
replaces an empty title, messages start empty. -/
def toChatSession (r : RemoteSessionInfo) : ChatSession :=
  { id := r.id
    title := if r.title = "" then "New Chat" else r.title
    messages := []
    createdAt := r.createdAt
    lastActivity := r.lastActivity
    isActive := r.isActive
    messageCount := some r.messageCount }

/-- Outcome of the remote session-list fetch. -/
inductive FetchOutcome where
  | ok (sessions : List RemoteSessionInfo)
  | fail
deriving Repr

/-- Environment of one initialization firing: the fetch outcome and the
outcome of the per-session history fetch (`none` models a failed history
request). -/
structure LoadEnv where
  fetch : FetchOutcome
  history : String → Option (List Message)

/-- The `reduce` of `useChat.ts` lines 77-79 / 83-85: the most recently
active session, scanning left to right and keeping the later element only
on strict `>`. -/
def mostRecent (hd : ChatSession) (tl : List ChatSession) : ChatSession :=
  tl.foldl (fun latest current =>
    if latest.lastActivity < current.lastActivity then current else latest) hd

/-- The reset effect of `useChat.ts` lines 138-149, which fires after the
load effect on every firing: clears the `sessionsLoaded` guard, marks the
list as loading again, and when unauthenticated also clears the session
list, the current session, and the persisted current-session id. -/
def resetEffect (auth : Bool) (st : ChatState) : ChatState :=
  let st1 := { st with sessionsLoaded := false, isLoadingSessions := true }
  if auth then st1
  else
    setSessionsMirror []
      { st1 with
          currentSession := none
          storage := { st1.storage with currentSessionId := none } }

/-- Target choice of `useChat.ts` lines 63-86: the session matching the
persisted id when present in the fetched list, else the most recently
active one. -/
def chooseTarget (persistedId : Option String) (hd : ChatSession)
    (tl : List ChatSession) : ChatSession :=
  match persistedId with
  | some pid =>
      match (hd :: tl).find? (fun s => s.id = pid) with
      | some s => s
      | none => mostRecent hd tl
  | none => mostRecent hd tl

/-- History loading of `useChat.ts` lines 89-108: the target session with
its fetched messages, or unchanged when the history request fails. -/
def applyHistory (history : String → Option (List Message))
    (target : ChatSession) : ChatSession :=
  match history target.id with
  | some msgs => { target with messages := msgs }
  | none => target

/-- Success continuation of `loadSessions` (`useChat.ts` lines 43-115) on
the mapped fetched list: the list replaces the store, the guard is set,
the target session is chosen, its history is loaded (best effort) and its
id persisted; an empty list clears the current session and the persisted
id.  The ghost `fetchCount` counts the dispatches. -/
def loadSessionsOk (env : LoadEnv) (backendSessions : List ChatSession)
    (st : ChatState) : ChatState :=
  let st1 := setSessionsMirror backendSessions
    { st with sessionsLoaded := true, fetchCount := st.fetchCount + 1 }
  match backendSessions with
  | [] =>
      { st1 with
          currentSession := none
          storage := { st1.storage with currentSessionId := none }
          isLoadingSessions := false }
  | hd :: tl =>
      let target := chooseTarget st1.storage.currentSessionId hd tl
      { st1 with
          currentSession := some (applyHistory env.history target)
          storage := { st1.storage with currentSessionId := some target.id }
          isLoadingSessions := false }

def loadSessions (env : LoadEnv) (st : ChatState) : ChatState :=
  match env.fetch with
  | .ok infos => loadSessionsOk env (infos.map toChatSession) st
  | .fail =>
      let st1 := setSessionsMirror st.storage.cachedSessions
        { st with fetchCount := st.fetchCount + 1 }
      { st1 with sessionsLoaded := true, isLoadingSessions := false }

/-- One firing of the two `useChat` effects with dependency
`[isAuthenticated]` (the mount firing and every authentication-change
firing).  The load effect (lines 18-135) runs first: when the guard is
set it only clears the loading flag; when unauthenticated it sets the
guard synchronously; when authenticated it dispatches the fetch and
suspends.  The reset effect (lines 138-149) then runs, and a suspended
load resumes afterwards. -/
def chatTrigger (auth : Bool) (env : LoadEnv) (st : ChatState) : ChatState :=
  if st.sessionsLoaded then
    resetEffect auth { st with isLoadingSessions := false }
  else if auth then
    loadSessions env (resetEffect auth st)
  else
    resetEffect auth
      { st with sessionsLoaded := true, isLoadingSessions := false }

/-- The bootstrap effect of `App.tsx` lines 40-63: auto-creates an initial
session exactly when loading has finished, the list is empty, the one-shot
latch is unset, the persisted opt-out flag is unset, and there is no
current session; the latch is set before creating.  The ghost
`autoCreates` counts the creations. -/
def appInitEffect (c : CreateOutcome) (now : Nat) (st : ChatState) :
    ChatState :=
  if !st.isLoadingSessions && st.sessions.length = 0 && !st.hasAttempted &&
      !st.storage.noAutoSession && st.currentSession = none then
    (createNewSession c now
      { st with hasAttempted := true, autoCreates := st.autoCreates + 1 }).1
  else st

/-- A user-visible event of the engine, with the resolution of every
remote call it performs supplied as environment data. -/
inductive SysEvent where
  | chat (auth : Bool) (env : LoadEnv)
  | appInit (c : CreateOutcome) (now : Nat)
  | newChat (c : CreateOutcome) (now : Nat)
  | select (s : ChatSession) (hist : Option (List Message))
  | delete (id : String) (ok : Bool)
  | send (content : String) (env : SendEnv)

/-- Interpretation of one event. -/
def sysStep (ev : SysEvent) (st : ChatState) : ChatState :=
  match ev with
  | .chat auth env => chatTrigger auth env st
  | .appInit c now => appInitEffect c now st
  | .newChat c now => handleNewChat c now st
  | .select s hist => selectSession s hist st
  | .delete id ok => handleDeleteSession id ok st
  | .send content env => (sendMessage content env st).1

/-- A run of the engine over a list of events. -/
def runSys (evs : List SysEvent) (st : ChatState) : ChatState :=
  evs.foldl (fun s ev => sysStep ev s) st

/-- The state right after mounting, before any effect firing: empty store,
initial flag values of the `useState` / `useRef` initializers, and the
persistent storage carried over from the previous page load — except that
the mirror effect also fires on mount and writes the initial empty list
over the cached snapshot. -/
def mountState (storage : Storage) : ChatState :=
  { sessions := []
    currentSession := none
    isLoading := false
    isLoadingSessions := true
    sessionsLoaded := false
    hasAttempted := false
    storage := { storage with cachedSessions := [] }
    fetchCount := 0
    autoCreates := 0
    toasts := [] }

/-! ## Concrete fixtures used by witnesses and counterexamples -/

/-- A fresh session with no messages. -/
def freshSession : ChatSession :=
  { id := "s1", title := "New Chat", messages := [], createdAt := 0,
    lastActivity := 0, isActive := true, messageCount := none }

/-- A settled state with one fresh session selected. -/
def sendReadyState : ChatState :=
  { sessions := [freshSession]
    currentSession := some freshSession
    isLoading := false
    isLoadingSessions := false
    sessionsLoaded := true
    hasAttempted := true
    storage := { cachedSessions := [freshSession], currentSessionId := some "s1",
                 noAutoSession := false }
    fetchCount := 0
    autoCreates := 0
    toasts := [] }

/-- A send whose first dispatch fails with a plain server error. -/
def failSendEnv : SendEnv :=
  { attempt1 := .fail { status := 500, detail := "boom" }, create := .fail,
    attempt2 := .fail { status := 500, detail := "boom" }, now := 7 }

/-- A send whose first dispatch succeeds. -/
def okSendEnv : SendEnv :=
  { attempt1 := .ok { response := "resp", timestamp := 8, memoryUsed := none,
                      guardrailTriggered := false },
    create := .fail, attempt2 := .fail { status := 500, detail := "x" }, now := 7 }

/-- A send whose first dispatch hits the session-not-found condition, whose
replacement session is created remotely as `n1`, and whose retry fails. -/
def notFoundSendEnv : SendEnv :=
  { attempt1 := .fail { status := 404, detail := "Session not found" },
    create := .ok { id := "n1", title := "New Chat", createdAt := 9,
                    lastActivity := 9, isActive := true },
    attempt2 := .fail { status := 500, detail := "y" }, now := 7 }

/-- An initialization environment fetching an empty remote list. -/
def emptyLoadEnv : LoadEnv := { fetch := .ok [], history := fun _ => none }

/-- Three remote sessions; `s3` is the most recently active. -/
def threeInfos : List RemoteSessionInfo :=
  [ { id := "s1", title := "one", createdAt := 1, lastActivity := 5,
      isActive := true, messageCount := 0 },
    { id := "s2", title := "two", createdAt := 1, lastActivity := 3,
      isActive := true, messageCount := 0 },
    { id := "s3", title := "three", createdAt := 1, lastActivity := 9,
      isActive := true, messageCount := 0 } ]

/-- An initialization environment fetching the three sessions with empty
histories. -/
def threeLoadEnv : LoadEnv :=
  { fetch := .ok threeInfos, history := fun _ => some [] }

/-! ## Helper lemmas -/

/-- The optimistic phase does not move the current session away from the
updated session object. -/
lemma optimisticUpdate_currentSession (content : String) (now : Nat)
    (cs : ChatSession) (st : ChatState) :
    (optimisticUpdate content now cs st).currentSession
      = some (updatedSessionOf content now cs) := by
  simp only [optimisticUpdate, updateSessionTitle, setSessionsMirror]
  split <;> rfl

/-- The optimistic phase surfaces no toast. -/
lemma optimisticUpdate_toasts (content : String) (now : Nat)
    (cs : ChatSession) (st : ChatState) :
    (optimisticUpdate content now cs st).toasts = st.toasts := by
  simp only [optimisticUpdate, updateSessionTitle, setSessionsMirror]
  split <;> rfl

/-- After the optimistic phase, every list entry carrying the current id
holds the optimistically appended user message. -/
lemma optimisticUpdate_sessions_messages (content : String) (now : Nat)
    (cs : ChatSession) (st : ChatState) :
    ∀ s ∈ (optimisticUpdate content now cs st).sessions, s.id = cs.id →
      s.messages = cs.messages ++ [userMessage content now] := by
  intro s hs hsid
  by_cases h0 : cs.messages.length = 0
  · simp only [optimisticUpdate, updateSessionTitle, setSessionsMirror, h0,
      if_true, reduceIte] at hs
    rcases List.mem_map.mp hs with ⟨x, hx, rfl⟩
    rcases List.mem_map.mp hx with ⟨y, hy, rfl⟩
    by_cases hy1 : y.id = cs.id
    · simp [hy1, updatedSessionOf]
    · simp [hy1] at hsid
  · simp only [optimisticUpdate, updateSessionTitle, setSessionsMirror, h0,
      reduceIte] at hs
    rcases List.mem_map.mp hs with ⟨y, hy, rfl⟩
    by_cases hy1 : y.id = cs.id
    · simp [hy1, updatedSessionOf]
    · simp [hy1] at hsid

/-- Evaluation of `sendMessage` on a non-recoverable first-dispatch
failure: the catch block runs on the optimistically updated state. -/
lemma sendMessage_fail_eq (content : String) (env : SendEnv) (st : ChatState)
    (cs : ChatSession) (e : ApiError) (hc : st.currentSession = some cs)
    (ha : env.attempt1 = .fail e) (hn : isNotFound e = false) :
    sendMessage content env st
      = ({ applyFailure (optimisticUpdate content env.now cs st) with
            isLoading := false }, [(cs.id, content)]) := by
  simp [sendMessage, hc, ha, hn]

/-- Evaluation of `sendMessage` on the not-found path whose retry fails:
the catch block runs on the state produced by the replacement-session
creation, and both dispatches are logged. -/
lemma sendMessage_notFound_retryFail_eq (content : String) (env : SendEnv)
    (st : ChatState) (cs : ChatSession) (e e2 : ApiError)
    (hc : st.currentSession = some cs) (ha : env.attempt1 = .fail e)
    (hn : isNotFound e = true) (h2 : env.attempt2 = .fail e2) :
    sendMessage content env st
      = ({ applyFailure
            (createNewSession env.create env.now
              (optimisticUpdate content env.now cs st)).1 with
            isLoading := false },
         [(cs.id, content), ((createdSession env.create env.now).id, content)]) := by
  simp [sendMessage, hc, ha, hn, h2, createNewSession]

/-- `createNewSession` does not surface a toast. -/
lemma createNewSession_toasts (c : CreateOutcome) (now : Nat)
    (st : ChatState) : (createNewSession c now st).1.toasts = st.toasts := rfl

/-- Evaluation of `sendMessage` without a current session: fail fast. -/
lemma sendMessage_none_eq (content : String) (env : SendEnv) (st : ChatState)
    (hc : st.currentSession = none) :
    sendMessage content env st
      = ({ st with toasts := st.toasts ++ ["No active session"] }, []) := by
  simp [sendMessage, hc]

/-- Evaluation of `sendMessage` on a successful first dispatch. -/
lemma sendMessage_ok_eq (content : String) (env : SendEnv) (st : ChatState)
    (cs : ChatSession) (r : ChatResponse) (hc : st.currentSession = some cs)
    (ha : env.attempt1 = .ok r) :
    sendMessage content env st
      = ({ applySuccess cs.id (updatedSessionOf content env.now cs).messages
            (updatedSessionOf content env.now cs) r env.now
            (optimisticUpdate content env.now cs st) with
            isLoading := false },
         [(cs.id, content)]) := by
  simp [sendMessage, hc, ha]

/-- Evaluation of `sendMessage` on the not-found path whose retry
succeeds. -/
lemma sendMessage_notFound_retryOk_eq (content : String) (env : SendEnv)
    (st : ChatState) (cs : ChatSession) (e : ApiError) (r : ChatResponse)
    (hc : st.currentSession = some cs) (ha : env.attempt1 = .fail e)
    (hn : isNotFound e = true) (h2 : env.attempt2 = .ok r) :
    sendMessage content env st
      = ({ applySuccess cs.id (updatedSessionOf content env.now cs).messages
            (updatedSessionOf content env.now cs) r env.now
            (createNewSession env.create env.now
              (optimisticUpdate content env.now cs st)).1 with
            isLoading := false },
         [(cs.id, content), ((createdSession env.create env.now).id, content)]) := by
  simp [sendMessage, hc, ha, hn, h2, createNewSession]

/-! ## C8 — local fallback session -/

/-- C8 counterexample: when remote creation fails at instant 42, the
synthesized fallback session id is `session-42`, which does not have the
form `local-<timestamp>` claimed by the spec. -/
theorem createNewSession_fallback_id_cex :
    (createNewSession .fail 42 sendReadyState).2.id = "session-42" ∧
    ∀ t : Nat, "session-42" ≠ "local-" ++ toString t := by
  refine ⟨rfl, ?_⟩
  intro t h
  have hd := congrArg String.data h
  simp [String.data_append] at hd

/-- C8 amended: whenever remote session creation fails, `createNewSession`
synthesizes a local-only fallback session whose id has the form
`session-<timestamp>`, and this fallback becomes the current session with
its id persisted as the current-session id. -/
theorem createNewSession_fallback_amended (now : Nat) (st : ChatState) :
    (createNewSession .fail now st).2.id = "session-" ++ toString now ∧
    (createNewSession .fail now st).1.currentSession
      = some (createNewSession .fail now st).2 ∧
    (createNewSession .fail now st).1.storage.currentSessionId
      = some (createNewSession .fail now st).2.id ∧
    (createNewSession .fail now st).1.sessions
      = (createNewSession .fail now st).2 :: st.sessions :=
  ⟨rfl, rfl, rfl, rfl⟩

/-! ## C6 — title derivation -/

/-- C6 code bug: sending the first message `hello` into a fresh session
with a successful dispatch leaves the session title `New Chat` both in the
list entry and in the current-session record — the derived title `hello`
set by `updateSessionTitle` is overwritten when the success path replaces
the entry with `finalSession`, which was built from the stale
pre-derivation session object.  The claim (and the spec) require the title
to remain the derived first-message prefix. -/
theorem sendMessage_title_reverted_bug :
    deriveTitle "hello" = "hello" ∧
    freshSession.messages.length = 0 ∧
    (sendMessage "hello" okSendEnv sendReadyState).1.sessions.map
      (fun s => s.title) = ["New Chat"] ∧
    (sendMessage "hello" okSendEnv sendReadyState).1.currentSession.map
      (fun s => s.title) = some "New Chat" ∧
    "New Chat" ≠ "hello" := by
  exact ⟨by decide, by decide, by decide, by decide, by decide⟩

/-! ## C1 — optimistic rollback -/

/-- C1 counterexample: a send whose dispatch fails with a plain 500 error
rolls the current-session record back to zero messages, but the session
list entry keeps the optimistically appended user message, so the send
does not leave the message list of the list entry as it was before. -/
theorem sendMessage_rollback_claim_cex :
    sendReadyState.sessions.map (fun s => s.messages) = [[]] ∧
    (sendMessage "hi" failSendEnv sendReadyState).1.sessions.map
        (fun s => s.messages) = [[userMessage "hi" 7]] ∧
    (sendMessage "hi" failSendEnv sendReadyState).1.sessions.map
        (fun s => s.messages) ≠
      sendReadyState.sessions.map (fun s => s.messages) ∧
    (sendMessage "hi" failSendEnv sendReadyState).1.currentSession.map
        (fun s => s.messages) = some [] := by
  exact ⟨by decide, by decide, by decide, by decide⟩

/-- C1 amended: if the dispatch of a send fails with a non-recoverable
error (anything other than the 404 session-not-found condition), the send
restores the current-session record message list exactly, while the entry
of that session in the session list retains the optimistically appended
user message; a user-visible error is surfaced. -/
theorem sendMessage_rollback_amended (content : String) (env : SendEnv)
    (st : ChatState) (cs : ChatSession) (e : ApiError)
    (hc : st.currentSession = some cs) (ha : env.attempt1 = .fail e)
    (hn : isNotFound e = false) :
    (sendMessage content env st).1.currentSession.map (fun c => c.messages)
      = some cs.messages ∧
    (∀ s ∈ (sendMessage content env st).1.sessions, s.id = cs.id →
      s.messages = cs.messages ++ [userMessage content env.now]) ∧
    (sendMessage content env st).1.toasts
      = st.toasts ++ ["Failed to send message. Please try again."] := by
  rw [sendMessage_fail_eq content env st cs e hc ha hn]
  refine ⟨?_, ?_, ?_⟩
  · simp [applyFailure, optimisticUpdate_currentSession, updatedSessionOf]
  · intro s hs hsid
    have hs2 : s ∈ (optimisticUpdate content env.now cs st).sessions := by
      simpa [applyFailure] using hs
    exact optimisticUpdate_sessions_messages content env.now cs st s hs2 hsid
  · simp [applyFailure, optimisticUpdate_toasts]

/-- C1 amended witness at the concrete failing send. -/
theorem sendMessage_rollback_amended_witness :
    (sendMessage "hi" failSendEnv sendReadyState).1.currentSession.map
        (fun c => c.messages) = some freshSession.messages ∧
    (∀ s ∈ (sendMessage "hi" failSendEnv sendReadyState).1.sessions,
      s.id = freshSession.id →
        s.messages
          = freshSession.messages ++ [userMessage "hi" failSendEnv.now]) ∧
    (sendMessage "hi" failSendEnv sendReadyState).1.toasts
      = sendReadyState.toasts
          ++ ["Failed to send message. Please try again."] :=
  sendMessage_rollback_amended "hi" failSendEnv sendReadyState freshSession
    { status := 500, detail := "boom" } rfl rfl (by decide)

/-! ## C2 — session-not-found retry is single-shot -/

/-- C2: every send performs at most two message-dispatch network attempts;
when the first dispatch fails with the 404 session-not-found condition the
send creates a replacement session and retries the same content exactly
once against the new session id, and when the retry fails too the error
propagates to the catch block and surfaces as a hard failure. -/
theorem sendMessage_retry_single_shot (content : String) (env : SendEnv)
    (st : ChatState) :
    (sendMessage content env st).2.length ≤ 2 ∧
    (∀ cs e, st.currentSession = some cs → env.attempt1 = .fail e →
      isNotFound e = true →
      (sendMessage content env st).2
        = [(cs.id, content),
           ((createdSession env.create env.now).id, content)] ∧
      (∀ e2, env.attempt2 = .fail e2 →
        (sendMessage content env st).1.toasts
          = st.toasts ++ ["Failed to send message. Please try again."])) := by
  constructor
  · cases hc : st.currentSession with
    | none => simp [sendMessage, hc]
    | some cs =>
        cases ha : env.attempt1 with
        | ok r => simp [sendMessage, hc, ha]
        | fail e =>
            by_cases hn : isNotFound e
            · cases h2 : env.attempt2 <;>
                simp [sendMessage, hc, ha, hn, h2, createNewSession]
            · simp [sendMessage, hc, ha, hn]
  · intro cs e hc ha hn
    constructor
    · cases h2 : env.attempt2 <;>
        simp [sendMessage, hc, ha, hn, h2, createNewSession]
    · intro e2 h2
      rw [sendMessage_notFound_retryFail_eq content env st cs e e2 hc ha hn h2]
      simp [applyFailure, createNewSession_toasts, optimisticUpdate_toasts]

/-- C2 witness at a concrete not-found send whose retry fails. -/
theorem sendMessage_retry_single_shot_witness :
    (sendMessage "hi" notFoundSendEnv sendReadyState).2.length ≤ 2 ∧
    (sendMessage "hi" notFoundSendEnv sendReadyState).2
      = [(freshSession.id, "hi"),
         ((createdSession notFoundSendEnv.create notFoundSendEnv.now).id,
          "hi")] ∧
    (sendMessage "hi" notFoundSendEnv sendReadyState).1.toasts
      = sendReadyState.toasts
          ++ ["Failed to send message. Please try again."] := by
  have h := sendMessage_retry_single_shot "hi" notFoundSendEnv sendReadyState
  have h2 := h.2 freshSession { status := 404, detail := "Session not found" }
    rfl rfl (by decide)
  exact ⟨h.1, h2.1, h2.2 { status := 500, detail := "y" } rfl⟩


/-! ## C5 and C10 — session deletion -/

/-- A second session used by delete fixtures. -/
def secondSession : ChatSession :=
  { id := "s2", title := "Two", messages := [], createdAt := 0,
    lastActivity := 1, isActive := true, messageCount := none }

/-- A settled state holding two sessions with the first selected. -/
def twoSessionState : ChatState :=
  { sendReadyState with
      sessions := [freshSession, secondSession]
      storage := { cachedSessions := [freshSession, secondSession],
                   currentSessionId := some "s1", noAutoSession := false } }

/-- C5: a deleted session is pruned from the local list only after the
remote delete succeeds — on remote failure the list, the current session
and the persisted id are unchanged and an error toast is surfaced; on
success, when the deleted session was current, the first remaining session
becomes current (and is persisted), and when it was the only session the
current session becomes none, the persisted id is removed, and the
auto-session opt-out flag is cleared. -/
theorem deleteSession_lifecycle (sid : String) (st : ChatState) :
    ((handleDeleteSession sid false st).sessions = st.sessions ∧
     (handleDeleteSession sid false st).currentSession = st.currentSession ∧
     (handleDeleteSession sid false st).storage.currentSessionId
       = st.storage.currentSessionId ∧
     (handleDeleteSession sid false st).toasts
       = st.toasts ++ ["Failed to delete session"]) ∧
    (∀ c first rest, st.currentSession = some c → c.id = sid →
      st.sessions.filter (fun s => s.id ≠ sid) = first :: rest →
      (handleDeleteSession sid true st).sessions = first :: rest ∧
      (handleDeleteSession sid true st).currentSession = some first ∧
      (handleDeleteSession sid true st).storage.currentSessionId
        = some first.id) ∧
    (∀ c, st.currentSession = some c → c.id = sid → st.sessions = [c] →
      (handleDeleteSession sid true st).sessions = [] ∧
      (handleDeleteSession sid true st).currentSession = none ∧
      (handleDeleteSession sid true st).storage.currentSessionId = none ∧
      (handleDeleteSession sid true st).storage.noAutoSession = false) := by
  refine ⟨?_, ?_, ?_⟩
  · by_cases hl : st.sessions.length = 1 <;>
      simp [handleDeleteSession, deleteSession, hl]
  · intro c first rest hc hcs hf
    simp only [decide_not] at hf
    by_cases hl : st.sessions.length = 1 <;>
      simp [handleDeleteSession, deleteSession, hc, hcs, hf, hl,
        setSessionsMirror]
  · intro c hc hcs hsess
    have hf : st.sessions.filter (fun s => s.id ≠ sid) = [] := by
      simp [hsess, hcs]
    simp [handleDeleteSession, deleteSession, hc, hcs, hf, hsess,
      setSessionsMirror]

/-- C5 witness: deleting the only (current) session on a successful remote
delete, and a failing remote delete, at concrete states. -/
theorem deleteSession_lifecycle_witness :
    ((handleDeleteSession "s1" true sendReadyState).sessions = [] ∧
     (handleDeleteSession "s1" true sendReadyState).currentSession = none ∧
     (handleDeleteSession "s1" true sendReadyState).storage.currentSessionId
       = none ∧
     (handleDeleteSession "s1" true sendReadyState).storage.noAutoSession
       = false) ∧
    (handleDeleteSession "s1" false sendReadyState).sessions
      = sendReadyState.sessions :=
  ⟨(deleteSession_lifecycle "s1" sendReadyState).2.2 freshSession rfl rfl rfl,
   (deleteSession_lifecycle "s1" sendReadyState).1.1⟩

/-- C10: deleting a non-current session whose remote delete succeeds
removes exactly that session from the list and leaves the current session
and the persisted current-session id unchanged. -/
theorem deleteSession_noncurrent_frame (sid : String) (st : ChatState)
    (c victim : ChatSession) (l1 l2 : List ChatSession)
    (hc : st.currentSession = some c) (hne : c.id ≠ sid)
    (hl : st.sessions = l1 ++ victim :: l2) (hv : victim.id = sid)
    (h1 : ∀ s ∈ l1, s.id ≠ sid) (h2 : ∀ s ∈ l2, s.id ≠ sid) :
    (deleteSession sid true st).sessions = l1 ++ l2 ∧
    (deleteSession sid true st).currentSession = st.currentSession ∧
    (deleteSession sid true st).storage.currentSessionId
      = st.storage.currentSessionId := by
  have e1 : l1.filter (fun s => !decide (s.id = sid)) = l1 :=
    List.filter_eq_self.mpr (by intro a ha; simp [h1 a ha])
  have e2 : l2.filter (fun s => !decide (s.id = sid)) = l2 :=
    List.filter_eq_self.mpr (by intro a ha; simp [h2 a ha])
  have hfil : st.sessions.filter (fun s => !decide (s.id = sid)) = l1 ++ l2 := by
    rw [hl, List.filter_append, List.filter_cons]
    simp [hv, e1, e2]
  simp [deleteSession, hc, hne, hfil, setSessionsMirror]

/-- C10 witness: deleting the non-current second session of a two-session
state. -/
theorem deleteSession_noncurrent_frame_witness :
    (deleteSession "s2" true twoSessionState).sessions = [freshSession] ∧
    (deleteSession "s2" true twoSessionState).currentSession
      = twoSessionState.currentSession ∧
    (deleteSession "s2" true twoSessionState).storage.currentSessionId
      = twoSessionState.storage.currentSessionId := by
  have h := deleteSession_noncurrent_frame "s2" twoSessionState
    freshSession secondSession [freshSession] []
    rfl (by decide) rfl rfl (by decide) (by decide)
  simpa using h


/-! ## C9 — cache mirrors store -/

/-- The mirror invariant: the persisted snapshot equals the in-memory
session list. -/
def cacheInv (st : ChatState) : Prop :=
  st.storage.cachedSessions = st.sessions

lemma cacheInv_setSessionsMirror (l : List ChatSession) (st : ChatState) :
    cacheInv (setSessionsMirror l st) := rfl

lemma cacheInv_updateSessionTitle (sid t : String) (now : Nat)
    (st : ChatState) : cacheInv (updateSessionTitle sid t now st) := rfl

lemma cacheInv_createNewSession (c : CreateOutcome) (now : Nat)
    (st : ChatState) : cacheInv (createNewSession c now st).1 := rfl

lemma cacheInv_handleNewChat (c : CreateOutcome) (now : Nat)
    (st : ChatState) : cacheInv (handleNewChat c now st) := rfl

lemma cacheInv_selectSession (sess : ChatSession)
    (hist : Option (List Message)) (st : ChatState) (h : cacheInv st) :
    cacheInv (selectSession sess hist st) := h

lemma cacheInv_deleteSession (sid : String) (ok : Bool) (st : ChatState)
    (h : cacheInv st) : cacheInv (deleteSession sid ok st) := by
  cases ok
  · exact h
  · unfold deleteSession
    cases hcur : st.currentSession with
    | none => rfl
    | some c =>
        by_cases hcs : c.id = sid
        · cases hfil : st.sessions.filter (fun s => s.id ≠ sid) <;>
            simp only [hcs, if_true, reduceIte, hfil] <;> rfl
        · simp only [hcs, reduceIte]
          rfl

lemma cacheInv_handleDeleteSession (sid : String) (ok : Bool)
    (st : ChatState) (h : cacheInv st) :
    cacheInv (handleDeleteSession sid ok st) := by
  unfold handleDeleteSession
  have h1 := cacheInv_deleteSession sid ok st h
  split
  · exact h1
  · exact h1

lemma cacheInv_optimisticUpdate (content : String) (now : Nat)
    (cs : ChatSession) (st : ChatState) :
    cacheInv (optimisticUpdate content now cs st) := by
  unfold optimisticUpdate
  split
  · exact cacheInv_updateSessionTitle _ _ _ _
  · exact cacheInv_setSessionsMirror _ _

lemma cacheInv_applySuccess (origId : String) (ms : List Message)
    (us : ChatSession) (r : ChatResponse) (now : Nat) (st : ChatState) :
    cacheInv (applySuccess origId ms us r now st) := by
  unfold applySuccess
  split
  · rfl
  · rfl

lemma cacheInv_applyFailure (st : ChatState) (h : cacheInv st) :
    cacheInv (applyFailure st) := h

lemma cacheInv_isLoadingFalse (st : ChatState) (h : cacheInv st) :
    cacheInv { st with isLoading := false } := h

lemma cacheInv_sendMessage (content : String) (env : SendEnv)
    (st : ChatState) (h : cacheInv st) :
    cacheInv (sendMessage content env st).1 := by
  cases hc : st.currentSession with
  | none =>
      rw [sendMessage_none_eq content env st hc]
      exact h
  | some cs =>
      cases ha : env.attempt1 with
      | ok r =>
          rw [sendMessage_ok_eq content env st cs r hc ha]
          exact cacheInv_isLoadingFalse _ (cacheInv_applySuccess _ _ _ _ _ _)
      | fail e =>
          cases hn : isNotFound e with
          | true =>
              cases h2 : env.attempt2 with
              | ok r =>
                  rw [sendMessage_notFound_retryOk_eq content env st cs e r
                    hc ha hn h2]
                  exact cacheInv_isLoadingFalse _
                    (cacheInv_applySuccess _ _ _ _ _ _)
              | fail e2 =>
                  rw [sendMessage_notFound_retryFail_eq content env st cs e e2
                    hc ha hn h2]
                  exact cacheInv_isLoadingFalse _
                    (cacheInv_applyFailure _ (cacheInv_createNewSession _ _ _))
          | false =>
              rw [sendMessage_fail_eq content env st cs e hc ha hn]
              exact cacheInv_isLoadingFalse _
                (cacheInv_applyFailure _ (cacheInv_optimisticUpdate _ _ _ _))

lemma cacheInv_resetEffect (auth : Bool) (st : ChatState) (h : cacheInv st) :
    cacheInv (resetEffect auth st) := by
  cases auth
  · exact cacheInv_setSessionsMirror _ _
  · exact h

lemma cacheInv_loadSessionsOk (env : LoadEnv) (bs : List ChatSession)
    (st : ChatState) : cacheInv (loadSessionsOk env bs st) := by
  cases bs <;> rfl

lemma cacheInv_loadSessions (env : LoadEnv) (st : ChatState) :
    cacheInv (loadSessions env st) := by
  unfold loadSessions
  cases hf : env.fetch with
  | fail => rfl
  | ok infos => exact cacheInv_loadSessionsOk env _ st

lemma cacheInv_chatTrigger (auth : Bool) (env : LoadEnv) (st : ChatState)
    (h : cacheInv st) : cacheInv (chatTrigger auth env st) := by
  unfold chatTrigger
  split
  · exact cacheInv_resetEffect _ _ h
  · split
    · exact cacheInv_loadSessions _ _
    · exact cacheInv_resetEffect _ _ h

lemma cacheInv_appInitEffect (c : CreateOutcome) (now : Nat) (st : ChatState)
    (h : cacheInv st) : cacheInv (appInitEffect c now st) := by
  unfold appInitEffect
  split
  · exact cacheInv_createNewSession _ _ _
  · exact h

lemma cacheInv_sysStep (ev : SysEvent) (st : ChatState) (h : cacheInv st) :
    cacheInv (sysStep ev st) := by
  cases ev with
  | chat auth env => exact cacheInv_chatTrigger auth env st h
  | appInit c now => exact cacheInv_appInitEffect c now st h
  | newChat c now => exact cacheInv_handleNewChat c now st
  | select s hist => exact cacheInv_selectSession s hist st h
  | delete id ok => exact cacheInv_handleDeleteSession id ok st h
  | send content env => exact cacheInv_sendMessage content env st h

lemma cacheInv_runSys (evs : List SysEvent) (st : ChatState)
    (h : cacheInv st) : cacheInv (runSys evs st) := by
  induction evs generalizing st with
  | nil => exact h
  | cons ev evs ih => exact ih _ (cacheInv_sysStep ev st h)

/-- C9: after any run of the engine from a mounted state, the persisted
session snapshot equals the in-memory session list (so in particular they
agree on id, title and lastActivity of every entry); moreover the mirror
write always carries the post-mutation list — `setSessionsMirror` writes
into the cache exactly the list it installs in memory, never the previous
one. -/
theorem cache_mirrors_store :
    (∀ (evs : List SysEvent) (storage : Storage),
      (runSys evs (mountState storage)).storage.cachedSessions
        = (runSys evs (mountState storage)).sessions) ∧
    (∀ (l : List ChatSession) (st : ChatState),
      (setSessionsMirror l st).storage.cachedSessions = l ∧
      (setSessionsMirror l st).sessions = l) := by
  constructor
  · intro evs storage
    exact cacheInv_runSys evs (mountState storage) rfl
  · intro l st
    exact ⟨rfl, rfl⟩


/-! ## C3 — bootstrap idempotence -/

lemma loadSessionsOk_guard (env : LoadEnv) (bs : List ChatSession)
    (st : ChatState) :
    (loadSessionsOk env bs st).sessionsLoaded = true ∧
    (loadSessionsOk env bs st).fetchCount = st.fetchCount + 1 := by
  cases bs <;> exact ⟨rfl, rfl⟩

lemma loadSessions_guard (env : LoadEnv) (st : ChatState) :
    (loadSessions env st).sessionsLoaded = true ∧
    (loadSessions env st).fetchCount = st.fetchCount + 1 := by
  unfold loadSessions
  cases hf : env.fetch with
  | fail => exact ⟨rfl, rfl⟩
  | ok infos => exact loadSessionsOk_guard env _ st

lemma resetEffect_guard (auth : Bool) (st : ChatState) :
    (resetEffect auth st).sessionsLoaded = false ∧
    (resetEffect auth st).fetchCount = st.fetchCount := by
  cases auth <;> exact ⟨rfl, rfl⟩

/-- An unauthenticated firing never fetches and leaves the guard cleared
(the reset effect runs last). -/
lemma chatTrigger_false_guard (env : LoadEnv) (st : ChatState) :
    (chatTrigger false env st).sessionsLoaded = false ∧
    (chatTrigger false env st).fetchCount = st.fetchCount := by
  constructor <;> (unfold chatTrigger; split <;> rfl)

/-- An authenticated firing with the guard cleared performs exactly one
fetch and sets the guard. -/
lemma chatTrigger_true_notLoaded (env : LoadEnv) (st : ChatState)
    (h : st.sessionsLoaded = false) :
    (chatTrigger true env st).sessionsLoaded = true ∧
    (chatTrigger true env st).fetchCount = st.fetchCount + 1 := by
  unfold chatTrigger
  rw [h]
  show (loadSessions env (resetEffect true st)).sessionsLoaded = true ∧
    (loadSessions env (resetEffect true st)).fetchCount = st.fetchCount + 1
  have hl := loadSessions_guard env (resetEffect true st)
  have hr := resetEffect_guard true st
  exact ⟨hl.1, by rw [hl.2, hr.2]⟩

/-- An authenticated firing with the guard set skips the fetch, but the
reset effect clears the guard again. -/
lemma chatTrigger_true_loaded (env : LoadEnv) (st : ChatState)
    (h : st.sessionsLoaded = true) :
    (chatTrigger true env st).sessionsLoaded = false ∧
    (chatTrigger true env st).fetchCount = st.fetchCount := by
  unfold chatTrigger
  rw [h]
  exact resetEffect_guard true _

/-- C3 counterexample: a mount that is already authenticated followed by
two authenticated=true triggers performs two remote session-list fetches,
not one: the second firing skips the fetch but its reset effect clears the
`sessionsLoaded` guard, so the third firing fetches again. -/
theorem bootstrap_fetch_claim_cex :
    (runSys [.chat true emptyLoadEnv, .chat true emptyLoadEnv,
             .chat true emptyLoadEnv]
        (mountState { cachedSessions := [], currentSessionId := none,
                      noAutoSession := false })).fetchCount = 2 ∧
    (2 : Nat) ≠ 1 := by
  exact ⟨by decide, by decide⟩


/-! Ghost-latch lemmas: no operation other than the bootstrap effect
touches the auto-create counter or the one-shot latch, and the latch is
never reset. -/

def latchInv (st : ChatState) : Prop :=
  st.autoCreates ≤ 1 ∧ (st.hasAttempted = false → st.autoCreates = 0)

lemma ghost_optimisticUpdate (content : String) (now : Nat)
    (cs : ChatSession) (st : ChatState) :
    (optimisticUpdate content now cs st).autoCreates = st.autoCreates ∧
    (optimisticUpdate content now cs st).hasAttempted = st.hasAttempted := by
  unfold optimisticUpdate
  split <;> exact ⟨rfl, rfl⟩

lemma ghost_applySuccess (origId : String) (ms : List Message)
    (us : ChatSession) (r : ChatResponse) (now : Nat) (st : ChatState) :
    (applySuccess origId ms us r now st).autoCreates = st.autoCreates ∧
    (applySuccess origId ms us r now st).hasAttempted = st.hasAttempted := by
  unfold applySuccess
  split <;> exact ⟨rfl, rfl⟩

lemma ghost_createNewSession (c : CreateOutcome) (now : Nat)
    (st : ChatState) :
    (createNewSession c now st).1.autoCreates = st.autoCreates ∧
    (createNewSession c now st).1.hasAttempted = st.hasAttempted := ⟨rfl, rfl⟩

lemma ghost_sendMessage (content : String) (env : SendEnv) (st : ChatState) :
    (sendMessage content env st).1.autoCreates = st.autoCreates ∧
    (sendMessage content env st).1.hasAttempted = st.hasAttempted := by
  cases hc : st.currentSession with
  | none =>
      rw [sendMessage_none_eq content env st hc]
      exact ⟨rfl, rfl⟩
  | some cs =>
      cases ha : env.attempt1 with
      | ok r =>
          rw [sendMessage_ok_eq content env st cs r hc ha]
          have h1 := ghost_applySuccess cs.id
            (updatedSessionOf content env.now cs).messages
            (updatedSessionOf content env.now cs) r env.now
            (optimisticUpdate content env.now cs st)
          have h2 := ghost_optimisticUpdate content env.now cs st
          exact ⟨h1.1.trans h2.1, h1.2.trans h2.2⟩
      | fail e =>
          cases hn : isNotFound e with
          | true =>
              cases h2 : env.attempt2 with
              | ok r =>
                  rw [sendMessage_notFound_retryOk_eq content env st cs e r
                    hc ha hn h2]
                  have hs := ghost_applySuccess cs.id
                    (updatedSessionOf content env.now cs).messages
                    (updatedSessionOf content env.now cs) r env.now
                    (createNewSession env.create env.now
                      (optimisticUpdate content env.now cs st)).1
                  have hcr := ghost_createNewSession env.create env.now
                    (optimisticUpdate content env.now cs st)
                  have ho := ghost_optimisticUpdate content env.now cs st
                  exact ⟨hs.1.trans (hcr.1.trans ho.1),
                    hs.2.trans (hcr.2.trans ho.2)⟩
              | fail e2 =>
                  rw [sendMessage_notFound_retryFail_eq content env st cs e e2
                    hc ha hn h2]
                  exact ⟨(ghost_optimisticUpdate content env.now cs st).1,
                    (ghost_optimisticUpdate content env.now cs st).2⟩
          | false =>
              rw [sendMessage_fail_eq content env st cs e hc ha hn]
              exact ⟨(ghost_optimisticUpdate content env.now cs st).1,
                (ghost_optimisticUpdate content env.now cs st).2⟩

lemma ghost_loadSessionsOk (env : LoadEnv) (bs : List ChatSession)
    (st : ChatState) :
    (loadSessionsOk env bs st).autoCreates = st.autoCreates ∧
    (loadSessionsOk env bs st).hasAttempted = st.hasAttempted := by
  cases bs <;> exact ⟨rfl, rfl⟩

lemma ghost_chatTrigger (auth : Bool) (env : LoadEnv) (st : ChatState) :
    (chatTrigger auth env st).autoCreates = st.autoCreates ∧
    (chatTrigger auth env st).hasAttempted = st.hasAttempted := by
  have hreset : ∀ (b : Bool) (x : ChatState),
      (resetEffect b x).autoCreates = x.autoCreates ∧
      (resetEffect b x).hasAttempted = x.hasAttempted := by
    intro b x
    cases b <;> exact ⟨rfl, rfl⟩
  have hload : ∀ (e : LoadEnv) (x : ChatState),
      (loadSessions e x).autoCreates = x.autoCreates ∧
      (loadSessions e x).hasAttempted = x.hasAttempted := by
    intro e x
    unfold loadSessions
    cases hf : e.fetch with
    | fail => exact ⟨rfl, rfl⟩
    | ok infos => exact ghost_loadSessionsOk e _ x
  unfold chatTrigger
  split
  · exact hreset auth _
  · split
    · have h1 := hload env (resetEffect auth st)
      have h2 := hreset auth st
      exact ⟨by rw [h1.1, h2.1], by rw [h1.2, h2.2]⟩
    · exact hreset auth _

lemma ghost_handleDeleteSession (sid : String) (ok : Bool) (st : ChatState) :
    (handleDeleteSession sid ok st).autoCreates = st.autoCreates ∧
    (handleDeleteSession sid ok st).hasAttempted = st.hasAttempted := by
  have hd : (deleteSession sid ok st).autoCreates = st.autoCreates ∧
      (deleteSession sid ok st).hasAttempted = st.hasAttempted := by
    cases ok
    · exact ⟨rfl, rfl⟩
    · unfold deleteSession
      cases hcur : st.currentSession with
      | none => exact ⟨rfl, rfl⟩
      | some c =>
          by_cases hcs : c.id = sid
          · cases hfil : st.sessions.filter (fun s => s.id ≠ sid) <;>
              simp only [hcs, if_true, reduceIte, hfil] <;> exact ⟨rfl, rfl⟩
          · simp only [hcs, reduceIte]
            exact ⟨rfl, rfl⟩
  unfold handleDeleteSession
  split
  · exact hd
  · exact hd

lemma latchInv_sysStep (ev : SysEvent) (st : ChatState) (h : latchInv st) :
    latchInv (sysStep ev st) := by
  cases ev with
  | chat auth env =>
      have hg := ghost_chatTrigger auth env st
      exact ⟨hg.1 ▸ h.1, fun hf => hg.1 ▸ h.2 (hg.2 ▸ hf)⟩
  | appInit c now =>
      show latchInv (appInitEffect c now st)
      unfold appInitEffect
      split
      · next hcond =>
          have hatt : st.hasAttempted = false := by
            cases hb : st.hasAttempted
            · rfl
            · rw [Bool.and_assoc, Bool.and_assoc, Bool.and_assoc] at hcond
              simp only [Bool.and_eq_true] at hcond
              have := hcond.2.2.1
              rw [hb] at this
              simp at this
          have h0 := h.2 hatt
          constructor
          · show st.autoCreates + 1 ≤ 1
            omega
          · intro hfalse
            have : (true : Bool) = false := hfalse
            simp at this
      · exact h
  | newChat c now => exact ⟨h.1, h.2⟩
  | select s hist => exact ⟨h.1, h.2⟩
  | delete id ok =>
      have hg := ghost_handleDeleteSession id ok st
      exact ⟨hg.1 ▸ h.1, fun hf => hg.1 ▸ h.2 (hg.2 ▸ hf)⟩
  | send content env =>
      have hg := ghost_sendMessage content env st
      exact ⟨hg.1 ▸ h.1, fun hf => hg.1 ▸ h.2 (hg.2 ▸ hf)⟩

lemma latchInv_runSys (evs : List SysEvent) (st : ChatState)
    (h : latchInv st) : latchInv (runSys evs st) := by
  induction evs generalizing st with
  | nil => exact h
  | cons ev evs ih => exact ih _ (latchInv_sysStep ev st h)

/-- C3 amended: a mount in the unauthenticated state followed by two
authenticated=true triggers performs exactly one remote session-list
fetch; and over every event sequence whatsoever, at most one initial
session is ever auto-created (the one-shot latch is never reset).  When
the mount itself fires authenticated, a third authenticated firing
fetches again (see the counterexample), because the reset effect clears
the `sessionsLoaded` guard after every firing. -/
theorem bootstrap_idempotent_amended :
    (∀ (e1 e2 e3 : LoadEnv) (storage : Storage),
      (runSys [.chat false e1, .chat true e2, .chat true e3]
        (mountState storage)).fetchCount = 1) ∧
    (∀ (evs : List SysEvent) (storage : Storage),
      (runSys evs (mountState storage)).autoCreates ≤ 1) := by
  constructor
  · intro e1 e2 e3 storage
    show (chatTrigger true e3 (chatTrigger true e2
      (chatTrigger false e1 (mountState storage)))).fetchCount = 1
    have h1 := chatTrigger_false_guard e1 (mountState storage)
    have h2 := chatTrigger_true_notLoaded e2 _ h1.1
    have h3 := chatTrigger_true_loaded e3 _ h2.1
    rw [h3.2, h2.2, h1.2]
    rfl
  · intro evs storage
    exact (latchInv_runSys evs (mountState storage)
      ⟨by simp [mountState], fun _ => rfl⟩).1


/-! ## C4 — session restoration and selection at initialization -/

lemma mostRecent_mem (hd : ChatSession) (tl : List ChatSession) :
    mostRecent hd tl ∈ hd :: tl := by
  induction tl generalizing hd with
  | nil => simp [mostRecent]
  | cons a tl ih =>
      have h := ih (if hd.lastActivity < a.lastActivity then a else hd)
      have heq : mostRecent hd (a :: tl)
          = mostRecent (if hd.lastActivity < a.lastActivity then a else hd) tl
          := rfl
      rw [heq]
      rcases List.mem_cons.mp h with h1 | h1
      · by_cases hlt : hd.lastActivity < a.lastActivity
        · rw [h1]
          simp [hlt]
        · rw [h1]
          simp [hlt]
      · simp [List.mem_cons.mpr (Or.inr (List.mem_cons.mpr (Or.inr h1)))]

lemma mostRecent_maximal (hd : ChatSession) (tl : List ChatSession) :
    ∀ s ∈ hd :: tl, s.lastActivity ≤ (mostRecent hd tl).lastActivity := by
  induction tl generalizing hd with
  | nil =>
      intro s hs
      simp at hs
      simp [hs, mostRecent]
  | cons a tl ih =>
      intro s hs
      have heq : mostRecent hd (a :: tl)
          = mostRecent (if hd.lastActivity < a.lastActivity then a else hd) tl
          := rfl
      rw [heq]
      have hstep := ih (if hd.lastActivity < a.lastActivity then a else hd)
      have hhead := hstep _ (List.mem_cons_self _ _)
      rcases List.mem_cons.mp hs with h1 | h1
      · subst h1
        by_cases hlt : s.lastActivity < a.lastActivity
        · calc s.lastActivity ≤ a.lastActivity := Nat.le_of_lt hlt
            _ ≤ _ := by simpa [hlt] using hhead
        · simpa [hlt] using hhead
      · rcases List.mem_cons.mp h1 with h2 | h2
        · subst h2
          by_cases hlt : hd.lastActivity < s.lastActivity
          · simpa [hlt] using hhead
          · calc s.lastActivity ≤ hd.lastActivity := Nat.le_of_not_lt hlt
              _ ≤ _ := by simpa [hlt] using hhead
        · exact hstep s (List.mem_cons.mpr (Or.inr h2))

lemma chooseTarget_found (pid : String) (target hd : ChatSession)
    (tl : List ChatSession)
    (hfind : (hd :: tl).find? (fun s => s.id = pid) = some target) :
    chooseTarget (some pid) hd tl = target := by
  have h0 : chooseTarget (some pid) hd tl
      = match (hd :: tl).find? (fun s => s.id = pid) with
        | some s => s
        | none => mostRecent hd tl := rfl
  rw [h0, hfind]

lemma chooseTarget_missing (pid : String) (hd : ChatSession)
    (tl : List ChatSession)
    (hfind : (hd :: tl).find? (fun s => s.id = pid) = none) :
    chooseTarget (some pid) hd tl = mostRecent hd tl := by
  have h0 : chooseTarget (some pid) hd tl
      = match (hd :: tl).find? (fun s => s.id = pid) with
        | some s => s
        | none => mostRecent hd tl := rfl
  rw [h0, hfind]

lemma applyHistory_id (h : String → Option (List Message))
    (t : ChatSession) : (applyHistory h t).id = t.id := by
  unfold applyHistory
  cases h t.id <;> rfl

lemma applyHistory_lastActivity (h : String → Option (List Message))
    (t : ChatSession) :
    (applyHistory h t).lastActivity = t.lastActivity := by
  unfold applyHistory
  cases h t.id <;> rfl

lemma applyHistory_messages (h : String → Option (List Message))
    (t : ChatSession) (msgs : List Message) (hh : h t.id = some msgs) :
    (applyHistory h t).messages = msgs := by
  unfold applyHistory
  rw [hh]

lemma loadSessionsOk_cons_current (env : LoadEnv) (hd : ChatSession)
    (tl : List ChatSession) (st : ChatState) :
    (loadSessionsOk env (hd :: tl) st).currentSession
      = some (applyHistory env.history
          (chooseTarget st.storage.currentSessionId hd tl)) := rfl

lemma loadSessionsOk_cons_persisted (env : LoadEnv) (hd : ChatSession)
    (tl : List ChatSession) (st : ChatState) :
    (loadSessionsOk env (hd :: tl) st).storage.currentSessionId
      = some (chooseTarget st.storage.currentSessionId hd tl).id := rfl

lemma chatTrigger_true_eq (env : LoadEnv) (st : ChatState)
    (h : st.sessionsLoaded = false) :
    chatTrigger true env st = loadSessions env (resetEffect true st) := by
  unfold chatTrigger
  rw [h]
  rfl

lemma loadSessions_ok_eq (env : LoadEnv) (st : ChatState)
    (infos : List RemoteSessionInfo) (hf : env.fetch = .ok infos) :
    loadSessions env st = loadSessionsOk env (infos.map toChatSession) st := by
  unfold loadSessions
  rw [hf]

/-- A carried-over storage with persisted current-session id `s2`. -/
def persistedS2Storage : Storage :=
  { cachedSessions := [], currentSessionId := some "s2",
    noAutoSession := false }

/-- C4 counterexample: the authentication flip false→true with three
remote sessions and a previously persisted current-id matching `s2`: the
unauthenticated firing removes the persisted id, so the authenticated
firing cannot restore it and selects the most recently active session
`s3` instead of the claimed `s2` — even though `s2` is in the fetched
list. -/
theorem restore_persisted_claim_cex :
    (mountState persistedS2Storage).storage.currentSessionId = some "s2" ∧
    "s2" ∈ (threeInfos.map toChatSession).map (fun s => s.id) ∧
    (runSys [.chat false emptyLoadEnv]
        (mountState persistedS2Storage)).storage.currentSessionId = none ∧
    (runSys [.chat false emptyLoadEnv, .chat true threeLoadEnv]
        (mountState persistedS2Storage)).currentSession.map (fun s => s.id)
      = some "s3" ∧
    (some "s3" : Option String) ≠ some "s2" := by
  exact ⟨by decide, by decide, by decide, by decide, by decide⟩

/-- C4 amended: an unauthenticated firing always removes the persisted
current-session id (so after a false→true flip the restore branch cannot
apply); when initialization runs authenticated with the guard cleared and
the fetch succeeds, it selects the session matching the currently
persisted id when that id is in the fetched list (loading its history),
otherwise a fetched session of greatest lastActivity, and on an empty
fetched list it clears the current session and the persisted id. -/
theorem loadSessions_selection_amended (env : LoadEnv) (st : ChatState)
    (infos : List RemoteSessionInfo)
    (hguard : st.sessionsLoaded = false) (hf : env.fetch = .ok infos) :
    (∀ (e : LoadEnv) (x : ChatState),
      (chatTrigger false e x).storage.currentSessionId = none) ∧
    (∀ pid target, st.storage.currentSessionId = some pid →
      (infos.map toChatSession).find? (fun s => s.id = pid) = some target →
      ∃ c, (chatTrigger true env st).currentSession = some c ∧
        c.id = pid ∧
        (chatTrigger true env st).storage.currentSessionId = some pid ∧
        ∀ msgs, env.history pid = some msgs → c.messages = msgs) ∧
    (∀ hd tl, infos.map toChatSession = hd :: tl →
      (st.storage.currentSessionId = none ∨
        ∃ pid, st.storage.currentSessionId = some pid ∧
          (infos.map toChatSession).find? (fun s => s.id = pid) = none) →
      ∃ c, (chatTrigger true env st).currentSession = some c ∧
        c.id ∈ (infos.map toChatSession).map (fun s => s.id) ∧
        ∀ s ∈ infos.map toChatSession,
          s.lastActivity ≤ c.lastActivity) ∧
    (infos = [] →
      (chatTrigger true env st).currentSession = none ∧
      (chatTrigger true env st).storage.currentSessionId = none) := by
  have hstor : (resetEffect true st).storage.currentSessionId
      = st.storage.currentSessionId := rfl
  refine ⟨?_, ?_, ?_, ?_⟩
  · intro e x
    unfold chatTrigger
    split
    · rfl
    · rfl
  · intro pid target hpid hfind
    have hne : infos.map toChatSession ≠ [] := by
      intro h
      rw [h] at hfind
      simp at hfind
    obtain ⟨hd, tl, hcons⟩ : ∃ hd tl, infos.map toChatSession = hd :: tl := by
      cases hm : infos.map toChatSession with
      | nil => exact absurd hm hne
      | cons hd tl => exact ⟨hd, tl, rfl⟩
    have hsid : target.id = pid := by
      have h := List.find?_some (hcons ▸ hfind)
      simpa using h
    have hct : chooseTarget (resetEffect true st).storage.currentSessionId
        hd tl = target := by
      rw [hstor, hpid]
      exact chooseTarget_found pid target hd tl (hcons ▸ hfind)
    rw [chatTrigger_true_eq env st hguard, loadSessions_ok_eq env _ infos hf,
      hcons]
    refine ⟨applyHistory env.history target, ?_, ?_, ?_, ?_⟩
    · rw [loadSessionsOk_cons_current, hct]
    · rw [applyHistory_id]
      exact hsid
    · rw [loadSessionsOk_cons_persisted, hct, hsid]
    · intro msgs hmsgs
      exact applyHistory_messages env.history target msgs (by
        rw [hsid]
        exact hmsgs)
  · intro hd tl hcons hmiss
    have hct : chooseTarget (resetEffect true st).storage.currentSessionId
        hd tl = mostRecent hd tl := by
      rw [hstor]
      rcases hmiss with hnone | ⟨pid, hpid, hfindnone⟩
      · rw [hnone]
        rfl
      · rw [hpid]
        exact chooseTarget_missing pid hd tl (hcons ▸ hfindnone)
    rw [chatTrigger_true_eq env st hguard, loadSessions_ok_eq env _ infos hf,
      hcons]
    refine ⟨applyHistory env.history (mostRecent hd tl), ?_, ?_, ?_⟩
    · rw [loadSessionsOk_cons_current, hct]
    · rw [applyHistory_id]
      exact List.mem_map.mpr ⟨mostRecent hd tl, mostRecent_mem hd tl, rfl⟩
    · intro s hs
      rw [applyHistory_lastActivity]
      exact mostRecent_maximal hd tl s hs
  · intro hempty
    subst hempty
    rw [chatTrigger_true_eq env st hguard, loadSessions_ok_eq env _ [] hf]
    exact ⟨rfl, rfl⟩

/-- C4 amended witness: an authenticated mount whose persisted id `s2` is
present in the three fetched sessions restores `s2` and loads its
history; an unauthenticated firing clears the persisted id. -/
theorem loadSessions_selection_amended_witness :
    (∀ (e : LoadEnv) (x : ChatState),
      (chatTrigger false e x).storage.currentSessionId = none) ∧
    (∃ c, (chatTrigger true threeLoadEnv
        (mountState persistedS2Storage)).currentSession = some c ∧
      c.id = "s2" ∧
      (chatTrigger true threeLoadEnv
        (mountState persistedS2Storage)).storage.currentSessionId = some "s2" ∧
      ∀ msgs, threeLoadEnv.history "s2" = some msgs → c.messages = msgs) := by
  have h := loadSessions_selection_amended threeLoadEnv
    (mountState persistedS2Storage) threeInfos rfl rfl
  exact ⟨h.1, h.2.1 "s2" (toChatSession
    { id := "s2", title := "two", createdAt := 1, lastActivity := 3,
      isActive := true, messageCount := 0 }) rfl (by decide)⟩


/-! ## C7 — summarization indicator (modelled from the spec) -/

/-- Modelled from the spec: the logic that sets and clears the
`isSummarizing` session flag is missing from the sources under `src/` —
`App.tsx` line 172 only reads `currentSession?.isSummarizing` and the
`SummarizationIndicator` component only displays it, while `useChat.ts`
and the `ChatSession` type contain no summarization handling.  Following
spec §3 (`isSummarizing`: transient flag, auto-clears after a fixed delay
of 3 time units) and §4.3 step 5 (on a send success whose response signals
a summarization event, set `isSummarizing := true` and schedule its
automatic clear after 3 time units), the state of the indicator is a
clock, the flag, and the pending scheduled clear instants. -/
structure SummState where
  now : Nat
  isSummarizing : Bool
  pendingClears : List Nat
deriving DecidableEq, Repr

/-- Modelled from the spec: an event of the summarization indicator —
a send completing successfully (with or without the backend summarization
signal) or one time unit elapsing. -/
inductive SummEvent where
  | send (summarizationTriggered : Bool)
  | tick
deriving DecidableEq, Repr

/-- Modelled from the spec: a summarization-signalling send sets the flag
and schedules a clear 3 time units ahead; a time step fires every due
scheduled clear, resetting the flag. -/
def summStep (ev : SummEvent) (s : SummState) : SummState :=
  match ev with
  | .send trig =>
      if trig then
        { s with
            isSummarizing := true
            pendingClears := s.pendingClears ++ [s.now + 3] }
      else s
  | .tick =>
      if s.pendingClears.any (fun d => d ≤ s.now + 1) then
        { now := s.now + 1
          isSummarizing := false
          pendingClears := s.pendingClears.filter (fun d => s.now + 1 < d) }
      else { s with now := s.now + 1 }

/-- A run of the summarization indicator. -/
def runSumm (evs : List SummEvent) (s : SummState) : SummState :=
  evs.foldl (fun s ev => summStep ev s) s

/-- The clearing invariant: before instant `d` a clear is still scheduled
at `d`; from instant `d` on the flag is down. -/
def clearInv (d : Nat) (s : SummState) : Prop :=
  (d ≤ s.now ∧ s.isSummarizing = false) ∨ (s.now < d ∧ d ∈ s.pendingClears)

lemma clearInv_step (d : Nat) (ev : SummEvent) (s : SummState)
    (hev : ev = SummEvent.tick ∨ ev = SummEvent.send false)
    (h : clearInv d s) : clearInv d (summStep ev s) := by
  rcases hev with hev | hev <;> subst hev
  · by_cases hfire : s.pendingClears.any (fun x => x ≤ s.now + 1)
    · rcases h with ⟨hle, _⟩ | ⟨hlt, hmem⟩
      · refine Or.inl ⟨?_, ?_⟩ <;> simp [summStep, hfire]
        omega
      · by_cases hd : d ≤ s.now + 1
        · refine Or.inl ⟨?_, ?_⟩ <;> simp [summStep, hfire]
          omega
        · refine Or.inr ⟨?_, ?_⟩
          · simp [summStep, hfire]
            omega
          · simp only [summStep, hfire, reduceIte]
            refine List.mem_filter.mpr ⟨hmem, ?_⟩
            simp
            omega
    · rcases h with ⟨hle, hflag⟩ | ⟨hlt, hmem⟩
      · refine Or.inl ⟨?_, ?_⟩
        · simp [summStep, hfire]
          omega
        · simp [summStep, hfire, hflag]
      · have hgt : s.now + 1 < d := by
          rcases Nat.lt_or_ge (s.now + 1) d with h1 | h1
          · exact h1
          · refine absurd (List.any_eq_true.mpr ⟨d, hmem, ?_⟩) hfire
            simp
            omega
        refine Or.inr ⟨?_, ?_⟩
        · simp [summStep, hfire]
          omega
        · simp only [summStep, hfire, reduceIte]
          exact hmem
  · simpa [summStep] using h

lemma clearInv_run (d : Nat) (evs : List SummEvent) (s : SummState)
    (hall : ∀ ev ∈ evs, ev = SummEvent.tick ∨ ev = SummEvent.send false)
    (h : clearInv d s) : clearInv d (runSumm evs s) := by
  induction evs generalizing s with
  | nil => exact h
  | cons ev evs ih =>
      exact ih _ (fun e he => hall e (List.mem_cons.mpr (Or.inr he)))
        (clearInv_step d ev s (hall ev (List.mem_cons_self _ _)) h)

lemma runSumm_now (evs : List SummEvent) (s : SummState)
    (hall : ∀ ev ∈ evs, ev = SummEvent.tick ∨ ev = SummEvent.send false) :
    (runSumm evs s).now
      = s.now + evs.countP (fun ev => ev = SummEvent.tick) := by
  induction evs generalizing s with
  | nil => simp [runSumm]
  | cons ev evs ih =>
      have htail : ∀ e ∈ evs, e = SummEvent.tick ∨ e = SummEvent.send false :=
        fun e he => hall e (List.mem_cons.mpr (Or.inr he))
      have hstep : runSumm (ev :: evs) s = runSumm evs (summStep ev s) := rfl
      rcases hall ev (List.mem_cons_self _ _) with hev | hev <;> subst hev
      · have hn : (summStep SummEvent.tick s).now = s.now + 1 := by
          by_cases hfire : s.pendingClears.any (fun x => x ≤ s.now + 1) <;>
            simp [summStep, hfire]
        rw [hstep, ih _ htail, hn]
        simp [List.countP_cons]
        omega
      · have hn : summStep (SummEvent.send false) s = s := by
          simp [summStep]
        rw [hstep, hn, ih _ htail]
        simp [List.countP_cons]

/-- C7 (modelled from the spec): after a successful send that signals a
summarization event, `isSummarizing` is true immediately (and the clock
has not advanced), and after any following events consisting only of time
steps and non-summarizing sends that span at least 3 time units, the flag
is false again — the scheduled clear fires independently of the other
sends. -/
theorem isSummarizing_timed_clear (s0 : SummState) (evs : List SummEvent)
    (hall : ∀ ev ∈ evs, ev = SummEvent.tick ∨ ev = SummEvent.send false)
    (hticks : 3 ≤ evs.countP (fun ev => ev = SummEvent.tick)) :
    (summStep (.send true) s0).isSummarizing = true ∧
    (summStep (.send true) s0).now = s0.now ∧
    (runSumm evs (summStep (.send true) s0)).isSummarizing = false := by
  refine ⟨by simp [summStep], by simp [summStep], ?_⟩
  have hinv0 : clearInv (s0.now + 3) (summStep (.send true) s0) := by
    refine Or.inr ⟨?_, ?_⟩
    · simp [summStep]
    · simp [summStep]
  have hinv := clearInv_run (s0.now + 3) evs _ hall hinv0
  have hnow := runSumm_now evs (summStep (.send true) s0) hall
  have hstart : (summStep (.send true) s0).now = s0.now := by simp [summStep]
  rcases hinv with ⟨_, hflag⟩ | ⟨hlt, _⟩
  · exact hflag
  · rw [hnow, hstart] at hlt
    omega

/-- The summarization indicator at rest at instant 0. -/
def summStart : SummState :=
  { now := 0, isSummarizing := false, pendingClears := [] }

/-- C7 witness: a summarizing send at instant 0 followed by three time
steps. -/
theorem isSummarizing_timed_clear_witness :
    (summStep (.send true) summStart).isSummarizing = true ∧
    (summStep (.send true) summStart).now = 0 ∧
    (runSumm [SummEvent.tick, SummEvent.tick, SummEvent.tick]
      (summStep (.send true) summStart)).isSummarizing = false :=
  isSummarizing_timed_clear summStart
    [SummEvent.tick, SummEvent.tick, SummEvent.tick]
    (by decide) (by decide)

end EarthGPT
